import Mathlib

/-!
Verification development for the GuardRail distributed circuit breaker.

The definitions below are a shallow embedding of the TypeScript source:

* `src/src/types.ts` — the `CircuitBreakerState` enum, the persisted
  `CircuitBreakerStats` record, options, and the `ServiceCallResult` shape;
* `src/src/HighPerformanceCircuitBreaker.ts` — the breaker's transitions
  (`transitionToOpen`, `transitionToHalfOpen`, `transitionToClosed`),
  `recordSuccess`, `recordFailure`, the health-check tick, the admission
  phase of `execute` (lines 278-309), the factory's `executeServiceCall`
  error mapping, and `getShardIdForKey`;
* `src/src/types.ts` (`EtcdStateStore`) and the in-memory test store —
  the two `incrementFailureCount` / `resetStats` implementations.

Conventions of the embedding:

* The state store is passed explicitly as an `Option CircuitBreakerStats`
  (the value under the breaker's service key, `none` when absent); every
  store-mutating operation returns the new value of that key.  Sequential
  composition of the `await`ed store calls inside one operation is modelled
  by threading this value through in program order.
* Every call site of `Date.now()` becomes an explicit `Int` parameter
  (epoch milliseconds); distinct call sites get distinct parameters.
* Ambient in-memory quantities read inside an operation
  (`this.activeRequests.size`, `calculateAverageResponseTime()`,
  `this.requestTimes.length`) become explicit `Nat` parameters.  The
  response-time average is a JS float whose value no claim depends on; it
  is carried abstractly as a `Nat`.
* Counters are `Nat` (they change by `+1` steps only), timestamps are
  `Int`, JS 32-bit `|0` coercion is explicit in `toInt32`.
* Events published with `this.emit` are collected in a `List BreakerEvent`
  in emission order.
-/

namespace GuardRail

/-- The three-valued state enum from `types.ts`. -/
inductive CircuitBreakerState where
  | CLOSED
  | OPEN
  | HALF_OPEN
deriving DecidableEq, Repr

/-- The persisted stats record from `types.ts` (`CircuitBreakerStats`).
Optional fields of the TypeScript interface are `Option`s. -/
structure CircuitBreakerStats where
  state : CircuitBreakerState
  failureCount : Nat
  lastFailureTime : Option Int
  lastSuccessTime : Option Int
  totalRequests : Nat
  successfulRequests : Nat
  failedRequests : Nat
  lastError : Option String
  currentLoad : Option Nat
  averageResponseTime : Option Nat
  lastMinuteRequests : Option Nat
  lastUpdateTime : Option Int
deriving DecidableEq, Repr

/-- Breaker options after the constructor's `??` normalization
(`HighPerformanceCircuitBreaker.ts` lines 42-49): every field present.
`maxConcurrent` is optional in the interface but always defined after
normalization, so the `!== undefined` guard in `execute` always holds. -/
structure CircuitBreakerOptions where
  failureThreshold : Nat
  resetTimeout : Int
  halfOpenRetryLimit : Nat
  monitorInterval : Int
  serviceTimeout : Int
  maxConcurrent : Nat
deriving DecidableEq, Repr

/-- The constructor defaults (lines 43-48). -/
def defaultOptions : CircuitBreakerOptions :=
  { failureThreshold := 5
    resetTimeout := 60000
    halfOpenRetryLimit := 1
    monitorInterval := 30000
    serviceTimeout := 5000
    maxConcurrent := 10000 }

/-- Events published via `this.emit` that the embedded operations can
produce.  Payloads are restricted to the data the embedding carries. -/
inductive BreakerEvent where
  | stateChange (a b : CircuitBreakerState)
  | circuitOpen (errMsg : String)
  | failure (errMsg : String)
  | rejected (errMsg : String)
  | healthCheck
deriving DecidableEq, Repr

/-- The record written by `initializeState` when the key is absent
(lines 73-85). -/
def initialStats (now : Int) : CircuitBreakerStats :=
  { state := CircuitBreakerState.CLOSED
    failureCount := 0
    lastFailureTime := none
    lastSuccessTime := some now
    lastError := none
    totalRequests := 0
    failedRequests := 0
    successfulRequests := 0
    currentLoad := some 0
    averageResponseTime := some 0
    lastMinuteRequests := none
    lastUpdateTime := some now }

/-- `EtcdStateStore.incrementFailureCount` (`types.ts` lines 176-202):
read-modify-write that bumps `failureCount`, `failedRequests`,
`totalRequests` and stamps `lastFailureTime`; on an absent key it
materializes a fresh CLOSED record with counters 1 and returns 1.
Returns (new failureCount, new stored value). -/
def etcdIncrementFailureCount (now : Int) (store : Option CircuitBreakerStats) :
    Nat × Option CircuitBreakerStats :=
  match store with
  | some currentStats =>
      let updatedStats := { currentStats with
        failureCount := currentStats.failureCount + 1
        failedRequests := currentStats.failedRequests + 1
        totalRequests := currentStats.totalRequests + 1
        lastFailureTime := some now }
      (updatedStats.failureCount, some updatedStats)
  | none =>
      (1, some
        { state := CircuitBreakerState.CLOSED
          failureCount := 1
          failedRequests := 1
          totalRequests := 1
          successfulRequests := 0
          lastFailureTime := some now
          lastSuccessTime := none
          lastError := none
          currentLoad := none
          averageResponseTime := none
          lastMinuteRequests := none
          lastUpdateTime := none })

/-- `InMemoryStateStore.incrementFailureCount` (test store, lines 40-57):
on an absent key it returns 0 and writes nothing; otherwise it bumps
`failureCount` and `failedRequests` (not `totalRequests`) and stamps
`lastFailureTime` and `lastUpdateTime`. -/
def inMemoryIncrementFailureCount (now : Int) (store : Option CircuitBreakerStats) :
    Nat × Option CircuitBreakerStats :=
  match store with
  | none => (0, none)
  | some stats =>
      let updatedStats := { stats with
        failureCount := stats.failureCount + 1
        failedRequests := stats.failedRequests + 1
        lastFailureTime := some now
        lastUpdateTime := some now }
      (updatedStats.failureCount, some updatedStats)

/-- `EtcdStateStore.resetStats` (`types.ts` lines 204-215): zeroes
`failureCount`, clears `lastFailureTime` and `lastError`; totals kept. -/
def etcdResetStats (store : Option CircuitBreakerStats) : Option CircuitBreakerStats :=
  match store with
  | none => none
  | some currentStats =>
      some { currentStats with
        failureCount := 0
        lastFailureTime := none
        lastError := none }

/-- `InMemoryStateStore.resetStats` (test store, lines 62-75): also zeroes
`failedRequests` and forces the state back to CLOSED. -/
def inMemoryResetStats (store : Option CircuitBreakerStats) : Option CircuitBreakerStats :=
  match store with
  | none => none
  | some stats =>
      some { stats with
        failureCount := 0
        failedRequests := 0
        lastFailureTime := none
        lastError := none
        state := CircuitBreakerState.CLOSED }

/-- `transitionToHalfOpen` (lines 221-237): no-op unless the stored state
is OPEN; otherwise writes HALF_OPEN with `failureCount := 0` (the update
object re-asserts `failedRequests` at its current value) and emits one
`stateChange` event. -/
def transitionToHalfOpen (now : Int) (store : Option CircuitBreakerStats) :
    Option CircuitBreakerStats × List BreakerEvent :=
  match store with
  | none => (none, [])
  | some stats =>
      if stats.state = CircuitBreakerState.OPEN then
        (some { stats with
            state := CircuitBreakerState.HALF_OPEN
            failureCount := 0
            failedRequests := stats.failedRequests
            lastUpdateTime := some now },
         [BreakerEvent.stateChange CircuitBreakerState.OPEN CircuitBreakerState.HALF_OPEN])
      else (store, [])

/-- `transitionToOpen` (lines 239-257): no-op when already OPEN; otherwise
writes OPEN with `lastFailureTime := now`, `lastError := e.message`,
`failureCount := failureThreshold`, then emits `stateChange` and
`circuitOpen`. -/
def transitionToOpen (opts : CircuitBreakerOptions) (errMsg : String) (now : Int)
    (store : Option CircuitBreakerStats) :
    Option CircuitBreakerStats × List BreakerEvent :=
  match store with
  | none => (none, [])
  | some stats =>
      if stats.state = CircuitBreakerState.OPEN then (store, [])
      else
        (some { stats with
            state := CircuitBreakerState.OPEN
            lastFailureTime := some now
            lastError := some errMsg
            failureCount := opts.failureThreshold
            lastUpdateTime := some now },
         [BreakerEvent.stateChange stats.state CircuitBreakerState.OPEN,
          BreakerEvent.circuitOpen errMsg])

/-- `transitionToClosed` (lines 259-276): no-op when already CLOSED;
otherwise writes CLOSED with `failureCount := 0`, `failedRequests := 0`,
`lastSuccessTime := now` and emits `stateChange`. -/
def transitionToClosed (now : Int) (store : Option CircuitBreakerStats) :
    Option CircuitBreakerStats × List BreakerEvent :=
  match store with
  | none => (none, [])
  | some stats =>
      if stats.state = CircuitBreakerState.CLOSED then (store, [])
      else
        (some { stats with
            state := CircuitBreakerState.CLOSED
            failureCount := 0
            failedRequests := 0
            lastSuccessTime := some now
            lastUpdateTime := some now },
         [BreakerEvent.stateChange stats.state CircuitBreakerState.CLOSED])

/-- `recordSuccess` (lines 375-386): bumps the success and total counters,
stamps `lastSuccessTime`, and refreshes the advisory fields; nothing
happens when the key is absent. -/
def recordSuccess (now : Int) (load avgRT : Nat) (store : Option CircuitBreakerStats) :
    Option CircuitBreakerStats :=
  match store with
  | none => none
  | some stats =>
      some { stats with
        successfulRequests := stats.successfulRequests + 1
        totalRequests := stats.totalRequests + 1
        lastSuccessTime := some now
        averageResponseTime := some avgRT
        currentLoad := some load
        lastUpdateTime := some now }

/-- `recordFailure` (lines 388-414).  `inc` is the store's
`incrementFailureCount` (differs between store implementations); `tInc`,
`tUpd`, `tOpen` are the `Date.now()` values observed inside `inc`, inside
`updateStats`, and inside `transitionToOpen` respectively.  The
`updateStats` write is built from the stats read at entry, so it overwrites
whatever `inc` wrote; afterwards `failure` is emitted, and the breaker
transitions to OPEN when the entry state was HALF_OPEN or the count
returned by `inc` reached the threshold. -/
def recordFailure (opts : CircuitBreakerOptions)
    (inc : Int → Option CircuitBreakerStats → Nat × Option CircuitBreakerStats)
    (errMsg : String) (load avgRT : Nat) (tInc tUpd tOpen : Int)
    (store : Option CircuitBreakerStats) :
    Option CircuitBreakerStats × List BreakerEvent :=
  match store with
  | none => (none, [])
  | some stats =>
      let failureCount := (inc tInc store).1
      let store2 : Option CircuitBreakerStats :=
        some { stats with
          failedRequests := stats.failedRequests + 1
          totalRequests := stats.totalRequests + 1
          lastError := some errMsg
          failureCount := failureCount
          lastFailureTime := some tUpd
          averageResponseTime := some avgRT
          currentLoad := some load
          lastUpdateTime := some tUpd }
      if stats.state = CircuitBreakerState.HALF_OPEN ∨
          opts.failureThreshold ≤ failureCount then
        let t := transitionToOpen opts errMsg tOpen store2
        (t.1, BreakerEvent.failure errMsg :: t.2)
      else
        (store2, [BreakerEvent.failure errMsg])

/-- One tick of the health-check loop (lines 148-186): when the stored
state is OPEN and the cool-down elapsed, re-check and transition to
HALF_OPEN, returning early; otherwise write back the advisory fields and
emit `healthCheck`.  A missing record is skipped. -/
def healthCheckTick (opts : CircuitBreakerOptions) (now : Int)
    (load avgRT reqCount : Nat) (store : Option CircuitBreakerStats) :
    Option CircuitBreakerStats × List BreakerEvent :=
  match store with
  | none => (none, [])
  | some stats =>
      let lastFailureTime := stats.lastFailureTime.getD 0
      if stats.state = CircuitBreakerState.OPEN ∧
          opts.resetTimeout ≤ now - lastFailureTime then
        transitionToHalfOpen now store
      else
        (some { stats with
            currentLoad := some load
            averageResponseTime := some avgRT
            lastMinuteRequests := some reqCount
            lastUpdateTime := some now },
         [BreakerEvent.healthCheck])

/-- Outcome of the admission phase of `execute`. -/
inductive AdmissionResult where
  | admitted
  | rejectedWith (errMsg : String)
deriving DecidableEq, Repr

/-- The admission phase of `execute` (lines 278-309), everything up to the
point where the thunk is registered and invoked: load (materializing the
default record when absent), the OPEN / cool-down check with its inline
OPEN→HALF_OPEN transition, then the concurrency cap.  The thunk runs only
in the `admitted` case; both rejections are thrown before the request is
added to `activeRequests`.  Returns (decision, new stored value, events
emitted during admission). -/
def executeAdmission (opts : CircuitBreakerOptions) (now : Int)
    (activeCount : Nat) (store0 : Option CircuitBreakerStats) :
    AdmissionResult × Option CircuitBreakerStats × List BreakerEvent :=
  let stats := match store0 with
    | none => initialStats now
    | some s => s
  let store1 : Option CircuitBreakerStats := some stats
  if stats.state = CircuitBreakerState.OPEN then
    if opts.resetTimeout ≤ now - stats.lastFailureTime.getD 0 then
      let t := transitionToHalfOpen now store1
      if opts.maxConcurrent ≤ activeCount then
        (AdmissionResult.rejectedWith "Maximum concurrent requests exceeded", t.1, t.2)
      else
        (AdmissionResult.admitted, t.1, t.2)
    else
      (AdmissionResult.rejectedWith "Circuit breaker is OPEN", store1, [])
  else
    if opts.maxConcurrent ≤ activeCount then
      (AdmissionResult.rejectedWith "Maximum concurrent requests exceeded", store1, [])
    else
      (AdmissionResult.admitted, store1, [])

/-! ### Concurrency-cap trace model

`activeRequests` is a per-breaker in-memory set; `execute` adds a fresh
request id after admission (line 309) and the `finally` block removes it
(line 356).  A trace interleaves admission attempts and completions. -/

/-- Local breaker state relevant to the concurrency cap: the persisted
record and `this.activeRequests.size`. -/
structure LocalState where
  store : Option CircuitBreakerStats
  active : Nat
deriving DecidableEq, Repr

/-- One observable step: an `execute` admission attempt at time `now`, or
the `finally` block of one in-flight call. -/
inductive BreakerOp where
  | call (now : Int)
  | finish
deriving DecidableEq, Repr

/-- Effect of one step on the local state: an admitted call adds its
request id to `activeRequests` (size + 1); a rejected call leaves the set
unchanged; a completing call removes its id (size - 1). -/
def stepOp (opts : CircuitBreakerOptions) (st : LocalState) : BreakerOp → LocalState
  | BreakerOp.call now =>
      let r := executeAdmission opts now st.active st.store
      match r.1 with
      | AdmissionResult.admitted => { store := r.2.1, active := st.active + 1 }
      | AdmissionResult.rejectedWith _ => { store := r.2.1, active := st.active }
  | BreakerOp.finish => { st with active := st.active - 1 }

/-- Run a whole trace of breaker operations. -/
def runOps (opts : CircuitBreakerOptions) : List BreakerOp → LocalState → LocalState
  | [], st => st
  | op :: rest, st => runOps opts rest (stepOp opts st op)

/-! ### Sharded routing (`getShardIdForKey`, lines 744-754) -/

/-- JavaScript's `| 0` coercion: reduce an integer to the signed 32-bit
range `[-2^31, 2^31)` preserving its residue mod `2^32`. -/
def toInt32 (n : Int) : Int := (n + 2 ^ 31) % 2 ^ 32 - 2 ^ 31

/-- One loop iteration of the hash (lines 747-750):
`hash = ((hash << 5) - hash) + key.charCodeAt(i); hash |= 0`.
In JS, `hash << 5` is itself a 32-bit operation on a 32-bit operand, the
subtraction and addition are exact, and `|= 0` wraps the result. -/
def hashStep (h : Int) (c : Nat) : Int := toInt32 (toInt32 (h * 32) - h + c)

/-- The full hash loop over the key's UTF-16 code units, starting from 0. -/
def hashKey (key : List Nat) : Int := key.foldl hashStep 0

/-- `getShardIdForKey` (lines 744-754): `Math.abs(hash) % shardCount`. -/
def getShardIdForKey (key : List Nat) (shardCount : Nat) : Nat :=
  (hashKey key).natAbs % shardCount

/-- Modelled from the spec (§4.3 routing contract), for comparison with
`getShardIdForKey`: the djb2-style iterative hash
`h = ((h << 5) - h) + c_i` "under 32-bit wrap semantics", with the wrap
rendered independently as the balanced residue `Int.bmod _ (2^32)`. -/
def specHashStep (h : Int) (c : Nat) : Int := Int.bmod (h * 2 ^ 5 - h + c) (2 ^ 32)

/-- Modelled from the spec: the iterated spec-side hash. -/
def specHash (key : List Nat) : Int := key.foldl specHashStep 0

/-- Modelled from the spec: `shardId = abs(hash(key)) mod shardCount`. -/
def specRouteKey (key : List Nat) (n : Nat) : Nat := (specHash key).natAbs % n

/-! ### Factory result mapping (`executeServiceCall`, lines 684-716) -/

/-- `String.prototype.includes`: `containsSub pat l` is true when `pat`
occurs as a contiguous substring of `l`. -/
def containsSub (pat : List Char) : List Char → Bool
  | [] => pat.isEmpty
  | c :: rest => List.isPrefixOf pat (c :: rest) || containsSub pat rest

/-- The exact message thrown by the OPEN admission rejection (line 293). -/
def circuitOpenMsg : String := "Circuit breaker is OPEN"

/-- Provenance of an error escaping `breaker.execute`, used only to state
which failures were admission rejections; the factory code sees only the
message string. -/
inductive ErrKind where
  | circuitOpenRejection
  | overloadedRejection
  | serviceTimeout
  | thunkError
deriving DecidableEq, Repr

/-- What `await breaker.execute(serviceCall)` settles to, as observed by
`executeServiceCall`'s try/catch. -/
inductive ExecOutcome (T : Type) where
  | ok (v : T)
  | thrown (kind : ErrKind) (msg : String)

/-- The `ServiceCallResult` record from `types.ts` (errors carried by
message; `circuitOpen` is absent (`none`) on the success path). -/
structure ServiceCallResult (T : Type) where
  success : Bool
  data : Option T
  error : Option String
  service : String
  shardId : Nat
  responseTime : Int
  circuitOpen : Option Bool

/-- `executeServiceCall`'s result construction (lines 692-715): on success
a record without `circuitOpen`; on failure
`circuitOpen := error.message.includes('Circuit breaker is OPEN')`. -/
def executeServiceCallResult {T : Type} (service : String) (shardId : Nat)
    (responseTime : Int) : ExecOutcome T → ServiceCallResult T
  | ExecOutcome.ok v =>
      { success := true, data := some v, error := none, service := service
        shardId := shardId, responseTime := responseTime, circuitOpen := none }
  | ExecOutcome.thrown _ msg =>
      { success := false, data := none, error := some msg, service := service
        shardId := shardId, responseTime := responseTime
        circuitOpen := some (containsSub circuitOpenMsg.toList msg.toList) }

/-! ### Concrete sample records used by witnesses and counterexamples -/

/-- A CLOSED record one failure away from the default threshold. -/
def sampleClosedStats : CircuitBreakerStats :=
  { state := CircuitBreakerState.CLOSED
    failureCount := 4
    lastFailureTime := some 0
    lastSuccessTime := some 0
    totalRequests := 10
    successfulRequests := 6
    failedRequests := 4
    lastError := none
    currentLoad := none
    averageResponseTime := none
    lastMinuteRequests := none
    lastUpdateTime := none }

/-- An OPEN record whose last failure happened at time 0. -/
def sampleOpenStats : CircuitBreakerStats :=
  { state := CircuitBreakerState.OPEN
    failureCount := 5
    lastFailureTime := some 0
    lastSuccessTime := none
    totalRequests := 7
    successfulRequests := 2
    failedRequests := 5
    lastError := some "boom"
    currentLoad := none
    averageResponseTime := none
    lastMinuteRequests := none
    lastUpdateTime := none }

/-- A HALF_OPEN record with nonzero failure counters. -/
def sampleHalfOpenStats : CircuitBreakerStats :=
  { state := CircuitBreakerState.HALF_OPEN
    failureCount := 2
    lastFailureTime := some 5
    lastSuccessTime := none
    totalRequests := 5
    successfulRequests := 2
    failedRequests := 3
    lastError := some "boom"
    currentLoad := none
    averageResponseTime := none
    lastMinuteRequests := none
    lastUpdateTime := some 5 }

/-! ### Hash/routing lemmas -/

/-- The JS `| 0` coercion coincides with the balanced residue mod `2^32`. -/
theorem toInt32_eq_bmod (n : Int) : toInt32 n = Int.bmod n (2 ^ 32) := by
  unfold toInt32 Int.bmod
  dsimp only
  split <;> push_cast <;> omega

/-- One source hash step equals one spec hash step: the intermediate
32-bit wrap of `hash << 5` does not change the wrapped result. -/
theorem hashStep_eq_specHashStep (h : Int) (c : Nat) : hashStep h c = specHashStep h c := by
  unfold hashStep specHashStep toInt32 Int.bmod
  dsimp only
  split <;> push_cast <;> omega

theorem foldl_hashStep_eq (key : List Nat) (h : Int) :
    key.foldl hashStep h = key.foldl specHashStep h := by
  induction key generalizing h with
  | nil => rfl
  | cons c rest ih => simp only [List.foldl_cons, hashStep_eq_specHashStep, ih]

/-! ### Claim theorems -/

/-- C1: For every breaker in CLOSED state, when a call fails and the
failure count returned by the store's `incrementFailureCount` reaches or
exceeds `failureThreshold`, the breaker transitions to OPEN, and the
persisted record after the transition has `state = OPEN`,
`failureCount = failureThreshold`, `lastFailureTime` set to the transition
time, and `lastError` equal to the failing error's message. -/
theorem recordFailure_closed_trips_open (opts : CircuitBreakerOptions)
    (inc : Int → Option CircuitBreakerStats → Nat × Option CircuitBreakerStats)
    (s : CircuitBreakerStats) (errMsg : String) (load avgRT : Nat) (tInc tUpd tOpen : Int)
    (hClosed : s.state = CircuitBreakerState.CLOSED)
    (hCount : opts.failureThreshold ≤ (inc tInc (some s)).1) :
    ∃ s', (recordFailure opts inc errMsg load avgRT tInc tUpd tOpen (some s)).1 = some s' ∧
      s'.state = CircuitBreakerState.OPEN ∧
      s'.failureCount = opts.failureThreshold ∧
      s'.lastFailureTime = some tOpen ∧
      s'.lastError = some errMsg := by
  unfold recordFailure
  dsimp only
  rw [if_pos (Or.inr hCount)]
  unfold transitionToOpen
  simp only [hClosed]
  exact ⟨_, rfl, rfl, rfl, rfl, rfl⟩

/-- Witness for C1 at a concrete input: the default options, the etcd
store increment, and a CLOSED record with four prior failures. -/
theorem recordFailure_closed_trips_open_witness :
    sampleClosedStats.state = CircuitBreakerState.CLOSED ∧
    defaultOptions.failureThreshold ≤
      (etcdIncrementFailureCount 1 (some sampleClosedStats)).1 ∧
    ∃ s', (recordFailure defaultOptions etcdIncrementFailureCount "boom" 0 0 1 2 3
        (some sampleClosedStats)).1 = some s' ∧
      s'.state = CircuitBreakerState.OPEN ∧
      s'.failureCount = defaultOptions.failureThreshold ∧
      s'.lastFailureTime = some 3 ∧
      s'.lastError = some "boom" :=
  ⟨rfl, by decide,
    recordFailure_closed_trips_open defaultOptions etcdIncrementFailureCount
      sampleClosedStats "boom" 0 0 1 2 3 rfl (by decide)⟩

/-- C2: For every breaker whose persisted state is OPEN, if at the moment
`execute` is called (or a health-check tick runs) the elapsed time since
`lastFailureTime` is at least `resetTimeout`, the breaker transitions
OPEN → HALF_OPEN; the persisted record after the transition has
`state = HALF_OPEN` and `failureCount = 0`, while `totalRequests`,
`successfulRequests` and `failedRequests` are unchanged. -/
theorem open_cooldown_transitions_half_open (opts : CircuitBreakerOptions)
    (s : CircuitBreakerStats) (now : Int) (active load avgRT reqCount : Nat)
    (hOpen : s.state = CircuitBreakerState.OPEN)
    (hElapsed : opts.resetTimeout ≤ now - s.lastFailureTime.getD 0) :
    ∃ s', (executeAdmission opts now active (some s)).2.1 = some s' ∧
      (healthCheckTick opts now load avgRT reqCount (some s)).1 = some s' ∧
      s'.state = CircuitBreakerState.HALF_OPEN ∧
      s'.failureCount = 0 ∧
      s'.totalRequests = s.totalRequests ∧
      s'.successfulRequests = s.successfulRequests ∧
      s'.failedRequests = s.failedRequests := by
  refine ⟨{ s with
            state := CircuitBreakerState.HALF_OPEN,
            failureCount := 0,
            failedRequests := s.failedRequests,
            lastUpdateTime := some now },
          ?_, ?_, rfl, rfl, rfl, rfl, rfl⟩
  · unfold executeAdmission transitionToHalfOpen
    simp only [hOpen, if_pos hElapsed, if_true, if_pos rfl]
    split <;> rfl
  · unfold healthCheckTick transitionToHalfOpen
    dsimp only
    rw [if_pos ⟨hOpen, hElapsed⟩]
    simp only [hOpen, if_pos rfl, if_true]

/-- Witness for C2: an OPEN record that failed at time 0, admission and
health check both observed at the default `resetTimeout`. -/
theorem open_cooldown_transitions_half_open_witness :
    sampleOpenStats.state = CircuitBreakerState.OPEN ∧
    defaultOptions.resetTimeout ≤ (60000 : Int) - sampleOpenStats.lastFailureTime.getD 0 ∧
    ∃ s', (executeAdmission defaultOptions 60000 0 (some sampleOpenStats)).2.1 = some s' ∧
      (healthCheckTick defaultOptions 60000 0 0 0 (some sampleOpenStats)).1 = some s' ∧
      s'.state = CircuitBreakerState.HALF_OPEN ∧
      s'.failureCount = 0 ∧
      s'.totalRequests = sampleOpenStats.totalRequests ∧
      s'.successfulRequests = sampleOpenStats.successfulRequests ∧
      s'.failedRequests = sampleOpenStats.failedRequests :=
  ⟨rfl, by decide,
    open_cooldown_transitions_half_open defaultOptions sampleOpenStats 60000 0 0 0 0
      rfl (by decide)⟩

/-- Shared helper: an OPEN breaker inside its cool-down rejects with the
CircuitOpen message, leaving the store untouched and emitting nothing. -/
theorem executeAdmission_open_rejects (opts : CircuitBreakerOptions)
    (s : CircuitBreakerStats) (now : Int) (active : Nat)
    (hOpen : s.state = CircuitBreakerState.OPEN)
    (hNotElapsed : now - s.lastFailureTime.getD 0 < opts.resetTimeout) :
    executeAdmission opts now active (some s) =
      (AdmissionResult.rejectedWith "Circuit breaker is OPEN", some s, []) := by
  unfold executeAdmission
  simp only [hOpen, if_pos rfl, if_true, if_neg (not_le.mpr hNotElapsed)]

/-- C3: For every breaker whose persisted state is OPEN with
`now - lastFailureTime < resetTimeout`, `execute` fails with the
CircuitOpen error without invoking the thunk (rejection happens in the
admission phase, before the request is registered), without updating any
persisted field, and without emitting any event or state transition: the
stored record is returned exactly as it was. -/
theorem open_admission_rejects_pure (opts : CircuitBreakerOptions)
    (s : CircuitBreakerStats) (now : Int) (active : Nat)
    (hOpen : s.state = CircuitBreakerState.OPEN)
    (hNotElapsed : now - s.lastFailureTime.getD 0 < opts.resetTimeout) :
    executeAdmission opts now active (some s) =
      (AdmissionResult.rejectedWith "Circuit breaker is OPEN", some s, []) :=
  executeAdmission_open_rejects opts s now active hOpen hNotElapsed

/-- Witness for C3: the OPEN sample record observed at time 0. -/
theorem open_admission_rejects_pure_witness :
    sampleOpenStats.state = CircuitBreakerState.OPEN ∧
    (0 : Int) - sampleOpenStats.lastFailureTime.getD 0 < defaultOptions.resetTimeout ∧
    executeAdmission defaultOptions 0 3 (some sampleOpenStats) =
      (AdmissionResult.rejectedWith "Circuit breaker is OPEN", some sampleOpenStats, []) :=
  ⟨rfl, by decide,
    open_admission_rejects_pure defaultOptions sampleOpenStats 0 3 rfl (by decide)⟩

/-- C5: For every key and every `shardCount`, the shard routing function
computes `abs(h) mod n` where `h` is the djb2-style iterative hash
`h = ((h << 5) - h) + c_i` under 32-bit wrap semantics (stated as a
refinement against `specRouteKey`, whose wrap is rendered independently
with `Int.bmod`), and routing is deterministic: the same key with the same
`shardCount` always yields the same `shardId`. -/
theorem getShardIdForKey_refines_spec_route (key : List Nat) (n : Nat) :
    getShardIdForKey key n = specRouteKey key n ∧
    getShardIdForKey key n = getShardIdForKey key n := by
  refine ⟨?_, rfl⟩
  unfold getShardIdForKey specRouteKey hashKey specHash
  rw [foldl_hashStep_eq]

/-- C10: `getShardIdForKey` is total and its result lies in `[0, n)` for
every key (including the empty key and keys with negative 32-bit hash)
whenever `n ≥ 1`. -/
theorem getShardIdForKey_lt_shardCount (key : List Nat) (n : Nat) (h : 1 ≤ n) :
    getShardIdForKey key n < n := by
  unfold getShardIdForKey
  exact Nat.mod_lt _ h

/-- Witness for C10: the empty key with four shards. -/
theorem getShardIdForKey_lt_shardCount_witness :
    1 ≤ 4 ∧ getShardIdForKey [] 4 < 4 :=
  ⟨by decide, getShardIdForKey_lt_shardCount [] 4 (by decide)⟩

/-- Admission only ever admits strictly below the concurrency cap. -/
theorem executeAdmission_admitted_lt (opts : CircuitBreakerOptions) (now : Int)
    (active : Nat) (store : Option CircuitBreakerStats)
    (h : (executeAdmission opts now active store).1 = AdmissionResult.admitted) :
    active < opts.maxConcurrent := by
  by_contra hge
  rw [not_lt] at hge
  unfold executeAdmission at h
  cases store <;> dsimp only at h <;> split_ifs at h

/-- C4 counterexample: with the circuit OPEN and the cool-down not
elapsed, a call arriving while `activeRequests.size` already equals
`maxConcurrent` is rejected with the CircuitOpen error, not the Overloaded
error — the OPEN check has priority, refuting the claim that `execute`
fails with Overloaded whenever `activeRequests.size ≥ maxConcurrent` at
admission time. -/
theorem overload_rejection_counterexample :
    defaultOptions.maxConcurrent ≤ 10000 ∧
    executeAdmission defaultOptions 0 10000 (some sampleOpenStats) =
      (AdmissionResult.rejectedWith "Circuit breaker is OPEN", some sampleOpenStats, []) ∧
    AdmissionResult.rejectedWith "Circuit breaker is OPEN" ≠
      AdmissionResult.rejectedWith "Maximum concurrent requests exceeded" :=
  ⟨by decide, by decide, by decide⟩

/-- C4 (amended): in-flight requests never exceed `maxConcurrent`: a call
arriving with `activeRequests.size ≥ maxConcurrent` is never admitted, and
is rejected with the Overloaded error unless the OPEN check already
rejected it with CircuitOpen (state OPEN with cool-down not elapsed);
only admitted calls are added to `activeRequests`, so along every trace of
admissions and completions the active count stays at most
`maxConcurrent`. -/
theorem concurrency_cap_invariant (opts : CircuitBreakerOptions) :
    (∀ (now : Int) (active : Nat) (store : Option CircuitBreakerStats),
        opts.maxConcurrent ≤ active →
        (executeAdmission opts now active store).1 ≠ AdmissionResult.admitted) ∧
    (∀ (now : Int) (active : Nat) (s : CircuitBreakerStats),
        opts.maxConcurrent ≤ active →
        (s.state ≠ CircuitBreakerState.OPEN ∨
          opts.resetTimeout ≤ now - s.lastFailureTime.getD 0) →
        (executeAdmission opts now active (some s)).1 =
          AdmissionResult.rejectedWith "Maximum concurrent requests exceeded") ∧
    (∀ (ops : List BreakerOp) (st : LocalState),
        st.active ≤ opts.maxConcurrent →
        (runOps opts ops st).active ≤ opts.maxConcurrent) := by
  refine ⟨?_, ?_, ?_⟩
  · intro now active store hge h
    exact absurd (executeAdmission_admitted_lt opts now active store h) (not_lt.mpr hge)
  · intro now active s hge hnotopen
    unfold executeAdmission
    dsimp only
    rcases hnotopen with hS | hE
    · rw [if_neg hS, if_pos hge]
    · by_cases hO : s.state = CircuitBreakerState.OPEN
      · rw [if_pos hO, if_pos hE, if_pos hge]
      · rw [if_neg hO, if_pos hge]
  · intro ops
    induction ops with
    | nil => intro st h; exact h
    | cons op rest ih =>
        intro st h
        refine ih _ ?_
        cases op with
        | finish => exact Nat.le_trans (Nat.sub_le _ _) h
        | call now =>
            unfold stepOp
            rcases hadm : (executeAdmission opts now st.active st.store).1 with _ | msg
            · dsimp only
              rw [hadm]
              exact executeAdmission_admitted_lt opts now st.active st.store hadm
            · dsimp only
              rw [hadm]
              exact h

/-- Witness for C4 (amended) at concrete inputs: a saturated breaker is
not admitted, a CLOSED saturated breaker gets the Overloaded rejection,
and a short concrete trace respects the cap. -/
theorem concurrency_cap_invariant_witness :
    (defaultOptions.maxConcurrent ≤ 10000 ∧
      (executeAdmission defaultOptions 0 10000 (some sampleClosedStats)).1 ≠
        AdmissionResult.admitted) ∧
    (sampleClosedStats.state ≠ CircuitBreakerState.OPEN ∧
      (executeAdmission defaultOptions 0 10000 (some sampleClosedStats)).1 =
        AdmissionResult.rejectedWith "Maximum concurrent requests exceeded") ∧
    ((⟨none, 0⟩ : LocalState).active ≤ defaultOptions.maxConcurrent ∧
      (runOps defaultOptions [BreakerOp.call 0, BreakerOp.call 1, BreakerOp.finish,
        BreakerOp.call 2] ⟨none, 0⟩).active ≤ defaultOptions.maxConcurrent) :=
  ⟨⟨by decide,
      (concurrency_cap_invariant defaultOptions).1 0 10000 (some sampleClosedStats) (by decide)⟩,
    ⟨by decide,
      (concurrency_cap_invariant defaultOptions).2.1 0 10000 sampleClosedStats (by decide)
        (Or.inl (by decide))⟩,
    ⟨by decide,
      (concurrency_cap_invariant defaultOptions).2.2
        [BreakerOp.call 0, BreakerOp.call 1, BreakerOp.finish, BreakerOp.call 2]
        ⟨none, 0⟩ (by decide)⟩⟩

/-- Ordering on the lifetime totals that `transitionToClosed` preserves. -/
def totalsLE (a b : CircuitBreakerStats) : Prop :=
  a.totalRequests ≤ b.totalRequests ∧ a.successfulRequests ≤ b.successfulRequests

/-- Ordering on all three lifetime counters. -/
def countersLE (a b : CircuitBreakerStats) : Prop :=
  totalsLE a b ∧ a.failedRequests ≤ b.failedRequests

/-- C6 counterexample: `transitionToClosed` resets the persisted
`failedRequests` counter from 3 to 0, so the counters are not monotonic
non-decreasing across every state transition, and the reset is not an
explicit `resetStats` call. -/
theorem transitionToClosed_resets_failedRequests :
    ((transitionToClosed 10 (some sampleHalfOpenStats)).1.map
        CircuitBreakerStats.failedRequests = some 0) ∧
    sampleHalfOpenStats.failedRequests = 3 :=
  ⟨by decide, rfl⟩

/-- C6 (amended): `totalRequests` and `successfulRequests` are monotonic
non-decreasing across every breaker operation, and `failedRequests` is
monotonic across every operation except the transition to CLOSED
(`transitionToClosed` resets `failedRequests` to 0 while preserving the
other two); `EtcdStateStore.resetStats` leaves all three counters
untouched. -/
theorem counters_monotonic_amended :
    (∀ (now : Int) (s s' : CircuitBreakerStats),
        (transitionToHalfOpen now (some s)).1 = some s' → countersLE s s') ∧
    (∀ (opts : CircuitBreakerOptions) (errMsg : String) (now : Int)
        (s s' : CircuitBreakerStats),
        (transitionToOpen opts errMsg now (some s)).1 = some s' → countersLE s s') ∧
    (∀ (now : Int) (s s' : CircuitBreakerStats),
        (transitionToClosed now (some s)).1 = some s' → totalsLE s s') ∧
    (∀ (now : Int) (load avgRT : Nat) (s s' : CircuitBreakerStats),
        recordSuccess now load avgRT (some s) = some s' → countersLE s s') ∧
    (∀ (opts : CircuitBreakerOptions)
        (inc : Int → Option CircuitBreakerStats → Nat × Option CircuitBreakerStats)
        (errMsg : String) (load avgRT : Nat) (tInc tUpd tOpen : Int)
        (s s' : CircuitBreakerStats),
        (recordFailure opts inc errMsg load avgRT tInc tUpd tOpen (some s)).1 = some s' →
        countersLE s s') ∧
    (∀ (opts : CircuitBreakerOptions) (now : Int) (load avgRT reqCount : Nat)
        (s s' : CircuitBreakerStats),
        (healthCheckTick opts now load avgRT reqCount (some s)).1 = some s' →
        countersLE s s') ∧
    (∀ (opts : CircuitBreakerOptions) (now : Int) (active : Nat)
        (s s' : CircuitBreakerStats),
        (executeAdmission opts now active (some s)).2.1 = some s' → countersLE s s') ∧
    (∀ (s s' : CircuitBreakerStats),
        etcdResetStats (some s) = some s' → countersLE s s') := by
  refine ⟨?_, ?_, ?_, ?_, ?_, ?_, ?_, ?_⟩
  · intro now s s' h
    unfold transitionToHalfOpen at h
    dsimp only at h
    split_ifs at h <;> injection h with h <;> subst h <;>
      exact ⟨⟨le_rfl, le_rfl⟩, le_rfl⟩
  · intro opts errMsg now s s' h
    unfold transitionToOpen at h
    dsimp only at h
    split_ifs at h <;> injection h with h <;> subst h <;>
      exact ⟨⟨le_rfl, le_rfl⟩, le_rfl⟩
  · intro now s s' h
    unfold transitionToClosed at h
    dsimp only at h
    split_ifs at h <;> injection h with h <;> subst h <;> exact ⟨le_rfl, le_rfl⟩
  · intro now load avgRT s s' h
    unfold recordSuccess at h
    injection h with h
    subst h
    exact ⟨⟨Nat.le_succ _, Nat.le_succ _⟩, le_rfl⟩
  · intro opts inc errMsg load avgRT tInc tUpd tOpen s s' h
    unfold recordFailure transitionToOpen at h
    dsimp only at h
    split_ifs at h <;> injection h with h <;> subst h <;>
      exact ⟨⟨Nat.le_succ _, le_rfl⟩, Nat.le_succ _⟩
  · intro opts now load avgRT reqCount s s' h
    unfold healthCheckTick transitionToHalfOpen at h
    dsimp only at h
    split_ifs at h <;> injection h with h <;> subst h <;>
      exact ⟨⟨le_rfl, le_rfl⟩, le_rfl⟩
  · intro opts now active s s' h
    unfold executeAdmission transitionToHalfOpen at h
    dsimp only at h
    split_ifs at h <;> injection h with h <;> subst h <;>
      exact ⟨⟨le_rfl, le_rfl⟩, le_rfl⟩
  · intro s s' h
    unfold etcdResetStats at h
    injection h with h
    subst h
    exact ⟨⟨le_rfl, le_rfl⟩, le_rfl⟩

/-- The record `transitionToHalfOpen 10` writes for `sampleOpenStats`. -/
def sampleOpenHalfOpened : CircuitBreakerStats :=
  { sampleOpenStats with
    state := CircuitBreakerState.HALF_OPEN
    failureCount := 0
    lastUpdateTime := some 10 }

/-- The record `transitionToClosed 10` writes for `sampleHalfOpenStats`. -/
def sampleHalfOpenClosed : CircuitBreakerStats :=
  { sampleHalfOpenStats with
    state := CircuitBreakerState.CLOSED
    failureCount := 0
    failedRequests := 0
    lastSuccessTime := some 10
    lastUpdateTime := some 10 }

/-- Witness for C6 (amended): the half-open and closed transitions applied
to concrete records. -/
theorem counters_monotonic_amended_witness :
    countersLE sampleOpenStats sampleOpenHalfOpened ∧
    totalsLE sampleHalfOpenStats sampleHalfOpenClosed :=
  ⟨counters_monotonic_amended.1 10 sampleOpenStats sampleOpenHalfOpened (by decide),
    counters_monotonic_amended.2.2.1 10 sampleHalfOpenStats sampleHalfOpenClosed (by decide)⟩

/-- C7 counterexample: the in-memory store's `incrementFailureCount` on an
absent key returns 0 and materializes nothing, refuting the claim that
every store implementation returns 1 and creates a fresh record. -/
theorem inMemory_increment_absent_counterexample :
    inMemoryIncrementFailureCount 0 none = (0, none) ∧ (0 : Nat) ≠ 1 :=
  ⟨rfl, by decide⟩

/-- C7 (amended): `EtcdStateStore.incrementFailureCount` on an absent key
materializes a fresh CLOSED record with
`failureCount = failedRequests = totalRequests = 1`,
`successfulRequests = 0`, stamps `lastFailureTime`, and returns 1;
`InMemoryStateStore.incrementFailureCount` on an absent key instead
returns 0 and leaves the store unchanged. -/
theorem increment_absent_key_behavior (now : Int) :
    (∃ s, etcdIncrementFailureCount now none = (1, some s) ∧
      s.state = CircuitBreakerState.CLOSED ∧
      s.failureCount = 1 ∧ s.failedRequests = 1 ∧ s.totalRequests = 1 ∧
      s.successfulRequests = 0 ∧ s.lastFailureTime = some now) ∧
    inMemoryIncrementFailureCount now none = (0, none) :=
  ⟨⟨_, rfl, rfl, rfl, rfl, rfl, rfl, rfl⟩, rfl⟩

/-- C8 counterexample: a thunk failure whose message happens to contain
the text "Circuit breaker is OPEN" — although its provenance is not a
CircuitOpen admission rejection — is reported with `circuitOpen = true`,
refuting the claim that `circuitOpen` is false for every non-CircuitOpen
failure regardless of message text. -/
theorem circuitOpen_flag_message_counterexample :
    ErrKind.thunkError ≠ ErrKind.circuitOpenRejection ∧
    (executeServiceCallResult (T := Unit) "svc" 0 7
        (ExecOutcome.thrown ErrKind.thunkError "Circuit breaker is OPEN")).circuitOpen =
      some true :=
  ⟨by decide, by decide⟩

/-- C8 (amended): `executeServiceCall` reports `circuitOpen = true` iff
the caught error's message contains the substring
"Circuit breaker is OPEN"; admission rejections of an OPEN circuit carry
exactly that message (so they are flagged), but any other error whose
message contains the same text is flagged as well. -/
theorem circuitOpen_flag_iff_message (T : Type) (svc : String) (sid : Nat) (rt : Int)
    (kind : ErrKind) (msg : String) :
    ((executeServiceCallResult (T := T) svc sid rt
        (ExecOutcome.thrown kind msg)).circuitOpen = some true ↔
      containsSub circuitOpenMsg.toList msg.toList = true) ∧
    (executeServiceCallResult (T := T) svc sid rt
        (ExecOutcome.thrown ErrKind.circuitOpenRejection circuitOpenMsg)).circuitOpen =
      some true ∧
    (∀ (opts : CircuitBreakerOptions) (now : Int) (active : Nat)
        (s : CircuitBreakerStats),
        s.state = CircuitBreakerState.OPEN →
        now - s.lastFailureTime.getD 0 < opts.resetTimeout →
        (executeAdmission opts now active (some s)).1 =
          AdmissionResult.rejectedWith circuitOpenMsg) := by
  refine ⟨?_, rfl, ?_⟩
  · unfold executeServiceCallResult
    simp
  · intro opts now active s hOpen hNotElapsed
    have h := executeAdmission_open_rejects opts s now active hOpen hNotElapsed
    rw [h]
    rfl

/-- Witness for C8 (amended): the OPEN sample record inside its cool-down
produces exactly the CircuitOpen message. -/
theorem circuitOpen_flag_iff_message_witness :
    sampleOpenStats.state = CircuitBreakerState.OPEN ∧
    (0 : Int) - sampleOpenStats.lastFailureTime.getD 0 < defaultOptions.resetTimeout ∧
    (executeAdmission defaultOptions 0 2 (some sampleOpenStats)).1 =
      AdmissionResult.rejectedWith circuitOpenMsg :=
  ⟨rfl, by decide,
    (circuitOpen_flag_iff_message Unit "svc" 0 7 ErrKind.thunkError "m").2.2
      defaultOptions 0 2 sampleOpenStats rfl (by decide)⟩

/-- C9: for every admission call — whatever the options, time, load and
stored record, in particular at the failing inputs where the call is
rejected for an OPEN circuit or for overload — the event list emitted by
the admission phase of `execute` contains no `rejected` event: the code
declares the `rejected` event kind but never emits it. -/
theorem admission_rejection_emits_no_event (opts : CircuitBreakerOptions) (now : Int)
    (active : Nat) (store : Option CircuitBreakerStats) (msg : String) :
    BreakerEvent.rejected msg ∉ (executeAdmission opts now active store).2.2 := by
  unfold executeAdmission transitionToHalfOpen
  cases store <;> dsimp only <;> split_ifs <;> simp

end GuardRail
